import Mathlib

/-!
Verification development for the home-connect-async library.

The Python sources are shallowly embedded: dictionaries become ordered
association lists, awaited HTTP calls become scripted response parameters,
raised exceptions become an explicit `PyError` sum, and `while` loops are
modelled with fuel.  Each claim about the specification is settled against
these embedded definitions.
-/

namespace HCA

/-- Model of a dynamically typed Python value as it appears in option/status
fields (`value` attributes are typed `any` in the source). -/
inductive PyVal where
  | none
  | bool (b : Bool)
  | int (i : Int)
  | str (s : String)
deriving DecidableEq, Repr

/-- Python truthiness of a `PyVal` (used by `if value:` style checks). -/
def PyVal.truthy : PyVal → Bool
  | .none => false
  | .bool b => b
  | .int i => decide (i ≠ 0)
  | .str s => decide (s ≠ "")

/-- Exceptions the embedded code can raise.  `homeConnectError` carries the
fields stored by `common.HomeConnectError`: message, code, and the error
key/description copied from an attached response. -/
inductive PyError where
  | attributeError (name : String)
  | keyError (key : String)
  | runtimeError (msg : String)
  | typeError (msg : String)
  | valueError (msg : String)
  | zeroDivisionError
  | homeConnectError (msg : Option String) (code : Option Int)
      (errorKey : Option String) (errorDescription : Option String)
deriving DecidableEq, Repr

/-- Decidable equality of fallible results (used to evaluate the embedded
operations on concrete inputs). -/
instance {ε α : Type} [DecidableEq ε] [DecidableEq α] : DecidableEq (Except ε α) :=
  fun x y =>
    match x, y with
    | .ok a, .ok b =>
        decidable_of_iff (a = b) ⟨fun h => by rw [h], fun h => by cases h; rfl⟩
    | .error a, .error b =>
        decidable_of_iff (a = b) ⟨fun h => by rw [h], fun h => by cases h; rfl⟩
    | .ok _, .error _ => isFalse (fun hc => Except.noConfusion hc)
    | .error _, .ok _ => isFalse (fun hc => Except.noConfusion hc)

/-- Ordered association-list lookup; models Python `d[k]` / `d.get(k)`. -/
def lookupA {α β : Type} [DecidableEq α] : List (α × β) → α → Option β
  | [], _ => Option.none
  | (k, v) :: rest, key => if k = key then some v else lookupA rest key

/-- Ordered association-list insert/update; models Python `d[k] = v`
(insertion order is preserved, an existing key is overwritten in place). -/
def setA {α β : Type} [DecidableEq α] : List (α × β) → α → β → List (α × β)
  | [], key, v => [(key, v)]
  | (k, w) :: rest, key, v =>
      if k = key then (key, v) :: rest else (k, w) :: setA rest key v

/-- Ordered association-list delete; models Python `del d[k]`. -/
def eraseA {α β : Type} [DecidableEq α] : List (α × β) → α → List (α × β)
  | [], _ => []
  | (k, w) :: rest, key => if k = key then rest else (k, w) :: eraseA rest key

/-! ## const.py -/

/-- The members of the `Events` enum exactly as declared in `const.py`
(each member name maps to an identical string value). -/
def eventsMembers : List String :=
  ["DATA_CHANGED", "CONNECTION_CHANGED", "CONNECTED", "DISCONNECTED",
   "PAIRED", "DEPAIRED", "PROGRAM_STARTED", "PROGRAM_FINISHED", "UNHANDLED"]

/-- Python attribute access `Events.<name>`: yields the member value when the
enum declares the member and raises `AttributeError` otherwise. -/
def eventsAttr (name : String) : Except PyError String :=
  if eventsMembers.contains name then .ok name else .error (.attributeError name)

/-! ## Service response envelope (api.HomeConnectApi.ApiResponse) -/

/-- The `error` object of a response body (`{error: {key, description}}`). -/
structure ErrObj where
  key : Option String := Option.none
  description : Option String := Option.none
deriving DecidableEq, Repr

/-- A service response envelope as seen through `ApiResponse`: HTTP status,
an optional parsed `data` payload of endpoint-specific shape `δ`, and an
optional `error` object. -/
structure RawResp (δ : Type) where
  status : Int
  data : Option δ := Option.none
  error : Option ErrObj := Option.none
deriving DecidableEq, Repr

/-- `ApiResponse.error_key`: the error key when the error object carries one. -/
def RawResp.errorKey {δ : Type} (r : RawResp δ) : Option String :=
  r.error.bind (·.key)

/-- `ApiResponse.error_description`. -/
def RawResp.errorDescription {δ : Type} (r : RawResp δ) : Option String :=
  r.error.bind (·.description)

/-- Python truthiness of `response.error_key` (`None` and `""` are falsy). -/
def RawResp.errKeyTruthy {δ : Type} (r : RawResp δ) : Bool :=
  match r.errorKey with
  | some s => decide (s ≠ "")
  | Option.none => false

/-- Python truthiness of `response.error_description`. -/
def RawResp.errDescTruthy {δ : Type} (r : RawResp δ) : Bool :=
  match r.errorDescription with
  | some s => decide (s ≠ "")
  | Option.none => false

/-- Construct the `HomeConnectError` raised as
`HomeConnectError(msg, response=response)`: per `common.py`, when no truthy
code is given the response status is stored as the code, and the error
key/description are copied from the response. -/
def hcErrorFromResponse {δ : Type} (msg : Option String) (code : Option Int)
    (r : RawResp δ) : PyError :=
  let storedCode : Option Int :=
    match code with
    | some c => if c = 0 then some r.status else some c
    | Option.none => some r.status
  .homeConnectError msg storedCode r.errorKey r.errorDescription

/-! ## api.py — HomeConnectApi._async_request -/

/-- One attempt of the transport loop: either the awaited request (or JSON
parsing) raises an exception, or it yields a response with a status and an
optional error key. -/
inductive Attempt where
  | raises
  | responds (status : Int) (errorKey : Option String)
deriving DecidableEq, Repr

/-- The envelope `_async_request` hands back to its caller on the non-raising
paths (status plus the error key the caller interprets). -/
structure ApiEnvelope where
  status : Int
  errorKey : Option String := Option.none
deriving DecidableEq, Repr

/-- The body of `_async_request`: `retry` starts at 3, the `while retry:` loop
runs while `retry` is non-zero and decrements it at the end of each pass.
Inside the `except` clause the guard `if not retry:` re-raises with code 901;
otherwise the exception is swallowed.  Falling out of the loop raises the
code-902 failure. -/
def asyncRequestLoop (method : String) (attempts : Nat → Attempt) :
    Nat → Nat → Except PyError ApiEnvelope
  | 0, _ =>
      .error (.homeConnectError
        (some "Failed to get a valid response from Home Connect server")
        (some 902) Option.none Option.none)
  | retry + 1, i =>
      match attempts i with
      | .raises =>
          -- `if not retry:` — retry is `retry + 1 ≠ 0` here, so this branch
          -- mirrors the guard faithfully yet can never fire inside the loop
          if retry + 1 = 0 then
            .error (.homeConnectError
              (some "API call to HomeConnect service failed")
              (some 901) Option.none Option.none)
          else
            asyncRequestLoop method attempts retry (i + 1)
      | .responds status errorKey =>
          if status = 429 then
            -- Too Many Requests: sleep for Retry-After and go round again
            asyncRequestLoop method attempts retry (i + 1)
          else if (method = "PUT" ∨ method = "DELETE") ∧ status = 204 then
            .ok { status := status }
          else if status = 401 ∨ status ≥ 500 then
            -- probably an expired token, the next retry refreshes it
            asyncRequestLoop method attempts retry (i + 1)
          else
            .ok { status := status, errorKey := errorKey }

/-- `HomeConnectApi._async_request(method, endpoint)` with the sequence of
per-attempt outcomes scripted by `attempts`. -/
def asyncRequest (method : String) (attempts : Nat → Attempt) :
    Except PyError ApiEnvelope :=
  asyncRequestLoop method attempts 3 0

/-- Extract the `code` of a raised `HomeConnectError`, if the computation
failed that way (used to state claims about failure codes). -/
def errCode {α : Type} : Except PyError α → Option Int
  | .error (.homeConnectError _ code _ _) => code
  | _ => Option.none

/-! ## callback_registery.py — CallbackRegistry -/

/-- ASCII case folding: the code a character contributes to a match under
`re.IGNORECASE` (upper-case basic latin letters fold onto lower case).  This
models how `re.compile(fnmatch.translate(key), re.IGNORECASE)` compares
characters. -/
def foldCode (c : Char) : Nat :=
  if 65 ≤ c.toNat ∧ c.toNat ≤ 90 then c.toNat + 32 else c.toNat

/-- Fuelled core of glob matching: every recursive call shrinks the combined
length of pattern and key, so fuel `p.length + s.length + 1` never runs out
(the fuel-0 answer `false` is unreachable from `globMatch`). -/
def globMatchAux : Nat → List Char → List Char → Bool
  | 0, _, _ => false
  | _ + 1, [], [] => true
  | _ + 1, [], _ :: _ => false
  | n + 1, pc :: ps, [] => if pc = '*' then globMatchAux n ps [] else false
  | n + 1, pc :: ps, c :: cs =>
      if pc = '*' then globMatchAux n ps (c :: cs) || globMatchAux n (pc :: ps) cs
      else (if pc = '?' then true else foldCode pc == foldCode c) && globMatchAux n ps cs

/-- Matching of a compiled glob pattern against an event key, as performed by
`callback_record["regex"].fullmatch(event_key)`: `*` matches any run of
characters, `?` any single character, and literal characters compare under
ASCII case folding (character classes of `fnmatch` are not exercised by the
registry keys and are not modelled). -/
def globMatch (p s : List Char) : Bool :=
  globMatchAux (p.length + s.length + 1) p s

/-- A wildcard callback record (the compiled regex is determined by `key`, so
only the key and the callback handle are stored). -/
structure WildRec where
  key : String
  callback : Nat
deriving DecidableEq, Repr

/-- One per-haId bucket of the registry: plain event keys map to an ordered
set of callbacks, and the `WILDCARD` key holds the list of wildcard records. -/
structure Bucket where
  exact : List (String × List Nat) := []
  wild : List WildRec := []
deriving DecidableEq, Repr

/-- The empty bucket created by `self._callbacks[haid] = {}`. -/
def Bucket.empty : Bucket := { exact := [], wild := [] }

/-- The registry `self._callbacks`: a dict from haId (`None` for the global
bucket) to a bucket. -/
abbrev Registry := List (Option String × Bucket)

/-- `CallbackRegistry.wildcard_registered`: is the (key, callback) pair
already in the list of wildcard records? -/
def wildcardRegistered (rec : WildRec) : List WildRec → Bool
  | [] => false
  | item :: rest =>
      (item.key = rec.key ∧ item.callback = rec.callback) || wildcardRegistered rec rest

/-- `CallbackRegistry.register_callback` for a single key (the source loops
the same body over a list of keys).  A key containing `*` is appended to the
wildcard records unless already registered; otherwise the callback is added
to the set stored under the key. -/
def registerCallback (reg : Registry) (cb : Nat) (key : String)
    (haid : Option String) : Registry :=
  let reg : Registry :=
    if (lookupA reg haid).isSome then reg else reg ++ [(haid, Bucket.empty)]
  let b := (lookupA reg haid).getD Bucket.empty
  if key.toList.contains '*' then
    let b' :=
      if wildcardRegistered ⟨key, cb⟩ b.wild then b
      else { b with wild := b.wild ++ [⟨key, cb⟩] }
    setA reg haid b'
  else
    let cbs := (lookupA b.exact key).getD []
    let cbs' := if cbs.contains cb then cbs else cbs ++ [cb]
    setA reg haid { b with exact := setA b.exact key cbs' }

/-- `CallbackRegistry.deregister_callback` for a single key.  For a wildcard
key the matching records are filtered out; for a plain key present in the
bucket the callback is removed with `set.remove`, which raises `KeyError`
when the callback is not an element. -/
def deregisterCallback (reg : Registry) (cb : Nat) (key : String)
    (haid : Option String) : Except PyError Registry :=
  let reg : Registry :=
    if (lookupA reg haid).isSome then reg else reg ++ [(haid, Bucket.empty)]
  let b := (lookupA reg haid).getD Bucket.empty
  if key.toList.contains '*' then
    let b' := { b with
      wild := b.wild.filter (fun item => item.key ≠ key ∨ item.callback ≠ cb) }
    .ok (setA reg haid b')
  else
    match lookupA b.exact key with
    | Option.none => .ok reg
    | some cbs =>
        if cbs.contains cb then
          .ok (setA reg haid { b with exact := setA b.exact key (cbs.erase cb) })
        else
          .error (.keyError "callback not in set")

/-- Result of a broadcast: the callbacks that were actually invoked, in
order, and the exception that aborted the dispatch, if any. -/
structure BroadcastOut where
  calls : List Nat := []
  err : Option PyError := Option.none
deriving DecidableEq, Repr

/-- One iteration of the `for haid in handlers:` loop of
`async_broadcast_event`: dispatch the exact matches, then the wildcard
matches, then — when nothing has fired so far and the bucket declares an
`UNHANDLED` key — the dispatch of default callbacks.  The source looks the
`UNHANDLED` key up in the OUTER registry dict (`self._callbacks[Events.UNHANDLED]`),
which raises `KeyError` when no bucket is registered under the haId
"UNHANDLED"; when such a bucket exists the source iterates its dict keys and
builds coroutines with `self._async_call(...)` that are never awaited, so no
callback body runs either way. -/
def dispatchBucket (reg : Registry) (b : Bucket) (eventKey : String)
    (handled : Bool) : List Nat × Bool × Option PyError :=
  let exactCalls := (lookupA b.exact eventKey).getD []
  let handled := handled || !exactCalls.isEmpty
  let wildCalls :=
    (b.wild.filter (fun r => globMatch r.key.toList eventKey.toList)).map (·.callback)
  let handled := handled || !wildCalls.isEmpty
  if !handled ∧ (lookupA b.exact "UNHANDLED").isSome then
    match lookupA reg (some "UNHANDLED") with
    | Option.none => (exactCalls ++ wildCalls, handled, some (.keyError "UNHANDLED"))
    | some _ => (exactCalls ++ wildCalls, handled, Option.none)
  else
    (exactCalls ++ wildCalls, handled, Option.none)

/-- The handler loop of `async_broadcast_event`, folded over the buckets
selected by `handlers = [h for h in [None, appliance.haId] if h in registry]`.
An exception raised while processing a bucket propagates immediately. -/
def broadcastLoop (reg : Registry) (eventKey : String) :
    List (Option String) → Bool → List Nat → BroadcastOut
  | [], _, calls => { calls := calls }
  | h :: rest, handled, calls =>
      let b := (lookupA reg h).getD Bucket.empty
      match dispatchBucket reg b eventKey handled with
      | (newCalls, handled', Option.none) =>
          broadcastLoop reg eventKey rest handled' (calls ++ newCalls)
      | (newCalls, _, some e) =>
          { calls := calls ++ newCalls, err := some e }

/-- `CallbackRegistry.async_broadcast_event(appliance, event_key)` for an
appliance with the given haId. -/
def broadcastEvent (reg : Registry) (haid : String) (eventKey : String) :
    BroadcastOut :=
  let handlers :=
    ([Option.none, some haid] : List (Option String)).filter
      (fun h => (lookupA reg h).isSome)
  broadcastLoop reg eventKey handlers false []

/-! ## options.py / appliance.py — the Option entity -/

/-- The `constraints` sub-dictionary of an option/program payload. -/
structure ConstraintsItem where
  min : Option Int := Option.none
  max : Option Int := Option.none
  stepsize : Option Int := Option.none
  allowedvalues : Option (List String) := Option.none
  execution : Option String := Option.none
  liveupdate : Option Bool := Option.none
deriving DecidableEq, Repr

/-- An option dictionary in the Home Connect payload format, as consumed by
`Option.create`. -/
structure OptItem where
  key : String
  type : Option String := Option.none
  name : Option String := Option.none
  value : PyVal := .none
  unit : Option String := Option.none
  displayvalue : Option String := Option.none
  constraints : Option ConstraintsItem := Option.none
deriving DecidableEq, Repr

/-- The `Option` dataclass (named `OptionRec` here to avoid clashing with the
core `Option` type). -/
structure OptionRec where
  key : String
  value : PyVal := .none
  type : Option String := Option.none
  name : Option String := Option.none
  unit : Option String := Option.none
  displayvalue : Option String := Option.none
  min : Option Int := Option.none
  max : Option Int := Option.none
  stepsize : Option Int := Option.none
  allowedvalues : Option (List String) := Option.none
  execution : Option String := Option.none
  liveupdate : Option Bool := Option.none
deriving DecidableEq, Repr

/-- `Option.create(data)`. -/
def optionCreate (d : OptItem) : OptionRec :=
  let base : OptionRec :=
    { key := d.key, type := d.type, name := d.name, value := d.value,
      unit := d.unit, displayvalue := d.displayvalue }
  match d.constraints with
  | Option.none => base
  | some c =>
      { base with
        min := c.min, max := c.max, stepsize := c.stepsize,
        allowedvalues := c.allowedvalues, execution := c.execution,
        liveupdate := c.liveupdate }

/-- Numeric view of a value for Python `<`, `>` and `%` against an int
(booleans are ints in Python; other kinds raise `TypeError`). -/
def PyVal.asNum : PyVal → Option Int
  | .bool b => some (if b then 1 else 0)
  | .int i => some i
  | _ => Option.none

/-- Python `value < m`. -/
def pyLt (v : PyVal) (m : Int) : Except PyError Bool :=
  match v.asNum with
  | some i => .ok (decide (i < m))
  | Option.none => .error (.typeError "unsupported operand types for comparison")

/-- Python `value > m`. -/
def pyGt (v : PyVal) (m : Int) : Except PyError Bool :=
  match v.asNum with
  | some i => .ok (decide (i > m))
  | Option.none => .error (.typeError "unsupported operand types for comparison")

/-- Python `value % m != 0` (Python `%` and `Int.emod` agree on being zero). -/
def pyModNe (v : PyVal) (m : Int) : Except PyError Bool :=
  match v.asNum with
  | some i =>
      if m = 0 then .error .zeroDivisionError else .ok (decide (i % m ≠ 0))
  | Option.none => .error (.typeError "unsupported operand types for mod")

/-- Python `value in allowedvalues` for a list of strings: equality holds
only for an equal string value. -/
def pyInStrList (v : PyVal) (l : List String) : Bool :=
  match v with
  | .str s => l.contains s
  | _ => false

/-- An option dictionary sent to the service
(`{"key": ..., "value": ..., "unit": ...}` and the `{key, value}` dicts built
by `async_start_program`). -/
structure OptDict where
  key : String
  value : PyVal := .none
  unit : Option String := Option.none
deriving DecidableEq, Repr

/-- `Option.get_option_to_apply(value, exception_on_error)`: validates the
candidate `value` against the constraints that are present and then builds
the dict to send — note the source puts `self.value`, the stored value, into
the `value` field of that dict. -/
def getOptionToApply (o : OptionRec) (value : PyVal) (exceptionOnError : Bool) :
    Except PyError (Option OptDict) := do
  let bad : Except PyError (Option OptDict) :=
    if exceptionOnError then .error (.valueError "Invalid value for this option")
    else .ok Option.none
  match o.allowedvalues with
  | some av => if !(pyInStrList value av) then return (← bad) else pure ()
  | Option.none => pure ()
  match o.min with
  | some m => if (← pyLt value m) then return (← bad) else pure ()
  | Option.none => pure ()
  match o.max with
  | some m => if (← pyGt value m) then return (← bad) else pure ()
  | Option.none => pure ()
  match o.stepsize with
  | some m => if (← pyModNe value m) then return (← bad) else pure ()
  | Option.none => pure ()
  return some { key := o.key, value := o.value, unit := o.unit }

/-! ## appliance.py — Program entity and the Appliance engine -/

/-- A program dictionary in the Home Connect payload format. -/
structure ProgItem where
  key : String
  name : Option String := Option.none
  constraints : Option ConstraintsItem := Option.none
  options : Option (List OptItem) := Option.none
deriving DecidableEq, Repr

/-- The `Program` dataclass. -/
structure ProgramRec where
  key : String
  name : Option String := Option.none
  options : Option (List (String × OptionRec)) := Option.none
  execution : Option String := Option.none
  active : Bool := false
deriving DecidableEq, Repr

/-- `Appliance.optionlist_to_dict`: a list of option dicts keyed by `key`. -/
def optionlistToDict (l : List OptItem) : List (String × OptionRec) :=
  l.foldl (fun d el => setA d el.key (optionCreate el)) []

/-- `Program.create(data)` followed by `Program._update(data)`. -/
def programCreate (p : ProgItem) : ProgramRec :=
  { key := p.key
    name := p.name
    execution :=
      match p.constraints with
      | some c => c.execution
      | Option.none => Option.none
    options :=
      match p.options with
      | some l => some (optionlistToDict l)
      | Option.none => Option.none }

/-- The per-appliance state touched by the embedded methods (the other
dataclass fields — name, brand, status, settings, commands, … — are not read
by the operations the claims are about). -/
structure ApplianceState where
  haId : String := "ha0"
  available_programs : Option (List (String × ProgramRec)) := Option.none
  active_program : Option ProgramRec := Option.none
  selected_program : Option ProgramRec := Option.none
  startonly_program : Option ProgramRec := Option.none
  startonly_options : Option (List (String × OptionRec)) := Option.none
deriving DecidableEq, Repr

/-- `Appliance._base_endpoint`. -/
def baseEndpoint (st : ApplianceState) : String :=
  "/api/homeappliances/" ++ st.haId

/-- `Appliance.get_applied_program`: active, else startonly, else selected. -/
def getAppliedProgram (st : ApplianceState) : Option ProgramRec :=
  match st.active_program with
  | some p => some p
  | Option.none =>
      match st.startonly_program with
      | some p => some p
      | Option.none => st.selected_program

/-- `Appliance.get_applied_program_available_options`. -/
def getAppliedProgramAvailableOptions (st : ApplianceState) :
    Option (List (String × OptionRec)) :=
  match getAppliedProgram st with
  | Option.none => Option.none
  | some prog =>
      match st.available_programs with
      | Option.none => Option.none
      | some av =>
          match lookupA av prog.key with
          | some p => p.options
          | Option.none => Option.none

/-- `Appliance.get_applied_program_available_option`: note the source runs
`option_key in opts` on the result of the previous helper, which raises
`TypeError` when that result is `None`. -/
def getAppliedProgramAvailableOption (st : ApplianceState) (key : String) :
    Except PyError (Option OptionRec) :=
  match getAppliedProgramAvailableOptions st with
  | Option.none => .error (.typeError "argument of type NoneType is not iterable")
  | some opts => .ok (lookupA opts key)

/-- `Appliance.set_start_option`: create the buffer dict if falsy, then
insert a fresh `Option(option_key, value=value)` for a new key or assign the
`.value` attribute of the existing record. -/
def setStartOption (st : ApplianceState) (key : String) (v : PyVal) :
    ApplianceState :=
  let so := st.startonly_options.getD []
  let newOpt : OptionRec :=
    match lookupA so key with
    | Option.none => { key := key, value := v }
    | some o => { o with value := v }
  { st with startonly_options := some (setA so key newOpt) }

/-- `Appliance.clear_start_option`. -/
def clearStartOption (st : ApplianceState) (key : String) : ApplianceState :=
  match st.startonly_options with
  | some so =>
      if (lookupA so key).isSome then
        { st with startonly_options := some (eraseA so key) }
      else st
  | Option.none => st

/-- A PUT actually issued to the service, with its endpoint and JSON body
content. -/
inductive PutBody where
  | kv (key : String) (value : PyVal)
  | programOptions (key : String) (options : List OptDict)
deriving DecidableEq, Repr

structure PutRecord where
  endpoint : String
  body : PutBody
deriving DecidableEq, Repr

/-- `Appliance._async_set_service_value(service_type, key, value)`, with the
service reply to the PUT scripted by `resp`.  Returns the boolean result and
the PUT that was issued. -/
def asyncSetServiceValue (st : ApplianceState) (serviceType : String)
    (key : String) (v : PyVal) (resp : RawResp Unit) :
    Except PyError (Bool × List PutRecord) :=
  let endpointE : Except PyError String :=
    if serviceType = "settings" ∨ serviceType = "commands" then
      .ok (baseEndpoint st ++ "/" ++ serviceType ++ "/" ++ key)
    else if serviceType = "options" then
      match st.active_program with
      | some _ => .ok (baseEndpoint st ++ "/programs/active/options/" ++ key)
      | Option.none =>
          match st.selected_program with
          | some _ => .ok (baseEndpoint st ++ "/programs/selected/options/" ++ key)
          | Option.none =>
              .error (.valueError "No active/selected program to apply the options to")
    else .error (.valueError "Unsupported service_type value")
  match endpointE with
  | .error e => .error e
  | .ok ep =>
      if resp.status = 204 then .ok (true, [⟨ep, .kv key v⟩])
      else if resp.errDescTruthy then
        .error (hcErrorFromResponse resp.errorDescription Option.none resp)
      else
        .error (hcErrorFromResponse
          (some "Failed to set service value (\x7bresponse.status\x7d)") Option.none resp)

/-- `Appliance.async_set_option(option_key, value)`: an unavailable option
raises; a `startonly` option is buffered (truthy value) or cleared (falsy
value) without touching the network; otherwise the option value is PUT via
`_async_set_service_value`. -/
def asyncSetOption (st : ApplianceState) (key : String) (v : PyVal)
    (resp : RawResp Unit) :
    Except PyError (ApplianceState × Bool × List PutRecord) :=
  match getAppliedProgramAvailableOption st key with
  | .error e => .error e
  | .ok Option.none => .error (.valueError "The option is not currently available")
  | .ok (some opt) =>
      if opt.execution = some "startonly" then
        if v.truthy then .ok (setStartOption st key v, true, [])
        else .ok (clearStartOption st key, true, [])
      else
        match asyncSetServiceValue st "options" key v resp with
        | .error e => .error e
        | .ok (b, puts) => .ok (st, b, puts)

/-- `re.fullmatch("Option ([^ ]*) not supported", desc)`: the description
must be exactly the literal wrapper around a space-free group, which is then
returned. -/
def matchUnsupported (desc : String) : Option String :=
  let l := desc.toList
  let pre := "Option ".toList
  let suf := " not supported".toList
  if pre.isPrefixOf l then
    let rest := l.drop pre.length
    if suf.isSuffixOf rest then
      let mid := rest.take (rest.length - suf.length)
      if mid.contains ' ' then Option.none else some (String.mk mid)
    else Option.none
  else Option.none

/-- Result of a modelled loop that may raise or run out of fuel. -/
inductive RunResult (α : Type) where
  | ok (a : α)
  | raised (e : PyError)
  | outOfFuel
deriving DecidableEq, Repr

/-- Outcome of `_async_set_program`: the sequence of PUTs that were issued
(endpoint, program key and options body of each request) and the result. -/
structure SetProgramOut where
  trace : List PutRecord := []
  result : RunResult Bool := .outOfFuel
deriving DecidableEq, Repr

/-- Exit of the `while retry:` loop of `_async_set_program`: raise with the
service description when it is truthy, else with the generic message. -/
def setProgramRaise (resp : RawResp Unit) (trace : List PutRecord) :
    SetProgramOut :=
  if resp.errDescTruthy then
    { trace := trace,
      result := .raised (hcErrorFromResponse resp.errorDescription Option.none resp) }
  else
    { trace := trace,
      result := .raised (hcErrorFromResponse
        (some "Failed to set program (\x7bresponse.status\x7d)") Option.none resp) }

/-- `if options: command['data']['options'] = options` — the body options are
overwritten only when the local `options` is truthy (non-None and
non-empty). -/
def setProgramCmd (cmdOptions : List OptDict) (options : Option (List OptDict)) :
    List OptDict :=
  match options with
  | some l => if l.isEmpty then cmdOptions else l
  | Option.none => cmdOptions

/-- The `while retry:` loop of `_async_set_program`.  `cmdOptions` is the
`command["data"]["options"]` field (initially `[]`), overwritten from the
local `options` only when that is truthy; on an `SDK.Error.UnsupportedOption`
whose description matches the pattern, the named option is filtered out of
`options` and the loop retries; any other response leaves the loop and
raises. -/
def setProgramLoop (endpoint : String) (key : String)
    (script : Nat → RawResp Unit) :
    Nat → Nat → List OptDict → Option (List OptDict) → List PutRecord →
    SetProgramOut
  | 0, _, _, _, trace => { trace := trace, result := .outOfFuel }
  | fuel + 1, i, cmdOptions, options, trace =>
      let cmdOptions := setProgramCmd cmdOptions options
      let trace := trace ++ [⟨endpoint, .programOptions key cmdOptions⟩]
      let resp := script i
      if resp.status = 204 then { trace := trace, result := .ok true }
      else if resp.errorKey = some "SDK.Error.UnsupportedOption" then
        match resp.errorDescription with
        | Option.none =>
            -- re.fullmatch(pattern, None)
            { trace := trace,
              result := .raised (.typeError "expected string or bytes-like object") }
        | some desc =>
            match matchUnsupported desc with
            | some bad =>
                match options with
                | Option.none =>
                    -- list comprehension over None
                    { trace := trace,
                      result := .raised (.typeError "NoneType object is not iterable") }
                | some opts =>
                    setProgramLoop endpoint key script fuel (i + 1) cmdOptions
                      (some (opts.filter (fun o => o.key ≠ bad))) trace
            | Option.none => setProgramRaise resp trace
      else setProgramRaise resp trace

/-- `Appliance._async_set_program(key, options, mode)` with the PUT replies
scripted by `script` and the loop bounded by `fuel`. -/
def asyncSetProgram (st : ApplianceState) (key : String)
    (options : Option (List OptDict)) (mode : String)
    (script : Nat → RawResp Unit) (fuel : Nat) : SetProgramOut :=
  setProgramLoop (baseEndpoint st ++ "/programs/" ++ mode) key script fuel 0 [] options []

/-- Python truthiness of an optional dict/list field (`None` and the empty
collection are falsy). -/
def optTruthy {α : Type} : Option (List α) → Bool
  | some l => !l.isEmpty
  | Option.none => false

/-- The trailing `if self.startonly_options:` block of the options
composition: append a `{key, value}` dict for every buffered startonly
option. -/
def addStartonly (soList : List (String × OptionRec)) (base : List OptDict) :
    List OptDict :=
  if soList.isEmpty then base
  else base ++ soList.map (fun kv => ({ key := kv.2.key, value := kv.2.value } : OptDict))

/-- The options list `async_start_program` composes when its `options`
argument is `None`: the selected program option values that are supported by
the target program and not shadowed by a startonly buffer entry, followed by
the buffered startonly options. -/
def buildStartOptions (st : ApplianceState) (programKey : String) :
    Except PyError (List OptDict) :=
  let soList := st.startonly_options.getD []
  let addSo (base : List OptDict) : List OptDict := addStartonly soList base
  match st.selected_program with
  | Option.none => .ok (addSo [])
  | some sel =>
      if optTruthy st.available_programs ∧ st.startonly_program = Option.none then
        match sel.options with
        | Option.none =>
            -- `self.selected_program.options.values()` on None
            .error (.attributeError "values")
        | some selOpts =>
            match lookupA (st.available_programs.getD []) programKey with
            | Option.none => .error (.keyError programKey)
            | some tp =>
                match tp.options with
                | Option.none =>
                    -- `opt.key in None`
                    .error (.typeError "argument of type NoneType is not iterable")
                | some tOpts =>
                    let base := selOpts.foldl (fun acc kv =>
                      if (lookupA tOpts kv.2.key).isSome ∧
                          (soList.isEmpty ∨ lookupA soList kv.2.key = Option.none) then
                        acc ++ [({ key := kv.2.key, value := kv.2.value } : OptDict)]
                      else acc) []
                    .ok (addSo base)
      else .ok (addSo [])

/-- `Appliance.async_start_program(program_key, options, program)`. -/
def asyncStartProgram (st : ApplianceState) (programKey : Option String)
    (options : Option (List OptDict)) (program : Option ProgramRec)
    (script : Nat → RawResp Unit) (fuel : Nat) : SetProgramOut :=
  let programKey :=
    match program with
    | some p => some p.key
    | Option.none => programKey
  let fallback : Except PyError String :=
    match st.startonly_program with
    | some sp => .ok sp.key
    | Option.none =>
        match st.selected_program with
        | some sel => .ok sel.key
        | Option.none =>
            .error (.homeConnectError
              (some "Either \"program\" or \"key\" must be specified")
              Option.none Option.none Option.none)
  let keyE : Except PyError String :=
    match programKey with
    | some pk => if pk = "" then fallback else .ok pk
    | Option.none => fallback
  match keyE with
  | .error e => { result := .raised e }
  | .ok pk =>
      let avOk : Bool :=
        match st.available_programs with
        | some l => !l.isEmpty ∧ (lookupA l pk).isSome
        | Option.none => false
      if ¬ avOk then
        { result := .raised (.homeConnectError
            (some "The specified program in not one of the available programs (not supported by the API)")
            Option.none Option.none Option.none) }
      else
        match (match options with
               | some o => Except.ok o
               | Option.none => buildStartOptions st pk) with
        | .error e => { result := .raised e }
        | .ok opts => asyncSetProgram st pk (some opts) "active" script fuel

/-- Outcome of `async_select_program`: the appliance state at return or at
the point the exception escaped, the events that were broadcast, the PUTs
that were issued, and the result. -/
structure SelectOut where
  st : ApplianceState
  events : List String := []
  trace : List PutRecord := []
  result : RunResult Unit := .ok ()
deriving DecidableEq, Repr

/-- `Appliance.async_select_program(key, options, program)`.  The two
re-fetches of the selected/available programs performed after a successful
PUT are passed in as the (already modelled) results of
`_async_fetch_programs`; each broadcast first resolves the event name on the
`Events` enum via `eventsAttr`. -/
def asyncSelectProgram (st : ApplianceState) (key : Option String)
    (options : Option (List OptDict)) (program : Option ProgramRec)
    (script : Nat → RawResp Unit) (fuel : Nat)
    (fetchSelected : Except PyError (Option ProgramRec))
    (fetchAvailable : Except PyError (Option (List (String × ProgramRec)))) :
    SelectOut :=
  if key = Option.none ∧ program = Option.none then
    { st := st,
      result := .raised (.homeConnectError
        (some "Either \"program\" or \"key\" must be specified")
        Option.none Option.none Option.none) }
  else
    let programE : Except PyError ProgramRec :=
      match program with
      | some p => .ok p
      | Option.none =>
          match st.available_programs with
          | some av =>
              if av.isEmpty then
                .error (.homeConnectError
                  (some "The selected program key is not available")
                  Option.none Option.none Option.none)
              else
                -- `self.available_programs[key]` (a Program object is truthy)
                match lookupA av (key.getD "") with
                | some p => .ok p
                | Option.none => .error (.keyError (key.getD ""))
          | Option.none =>
              .error (.homeConnectError
                (some "The selected program key is not available")
                Option.none Option.none Option.none)
    match programE with
    | .error e => { st := st, result := .raised e }
    | .ok prog =>
        let progKey := prog.key
        let previous :=
          match st.startonly_program with
          | some p => some p
          | Option.none => st.selected_program
        if prog.execution = some "startonly" then
          let st := { st with startonly_program := some prog }
          match previous with
          | Option.none =>
              -- `previous_program.key` on None
              { st := st, result := .raised (.attributeError "key") }
          | some pp =>
              if pp.key ≠ progKey then
                match eventsAttr "PROGRAM_SELECTED" with
                | .error e => { st := st, result := .raised e }
                | .ok ev => { st := st, events := [ev] }
              else { st := st }
        else
          let st := { st with startonly_program := Option.none }
          let out := asyncSetProgram st progKey options "selected" script fuel
          match out.result with
          | .raised e => { st := st, trace := out.trace, result := .raised e }
          | .outOfFuel => { st := st, trace := out.trace, result := .outOfFuel }
          | .ok res =>
              if !res then { st := st, trace := out.trace }
              else
                match previous with
                | Option.none =>
                    { st := st, trace := out.trace,
                      result := .raised (.attributeError "key") }
                | some pp =>
                    if pp.key ≠ progKey then
                      match fetchSelected with
                      | .error e =>
                          { st := st, trace := out.trace, result := .raised e }
                      | .ok selRes =>
                          let st := { st with selected_program := selRes }
                          match fetchAvailable with
                          | .error e =>
                              { st := st, trace := out.trace, result := .raised e }
                          | .ok avRes =>
                              let st := { st with available_programs := avRes }
                              match eventsAttr "PROGRAM_SELECTED" with
                              | .error e =>
                                  { st := st, trace := out.trace, result := .raised e }
                              | .ok ev1 =>
                                  match eventsAttr "DATA_CHANGED" with
                                  | .error e =>
                                      { st := st, trace := out.trace,
                                        events := [ev1], result := .raised e }
                                  | .ok ev2 =>
                                      { st := st, trace := out.trace,
                                        events := [ev1, ev2] }
                    else { st := st, trace := out.trace }

/-! ## appliance.py — collection fetchers -/

/-- The `Status` dataclass (also the payload item shape `Status.create`
consumes). -/
structure StatusRec where
  key : String
  value : PyVal := .none
  name : Option String := Option.none
  displayvalue : Option String := Option.none
deriving DecidableEq, Repr

/-- `Status.create(data)` (a field-for-field copy of the payload item). -/
def statusCreate (d : StatusRec) : StatusRec :=
  { key := d.key, name := d.name, value := d.value, displayvalue := d.displayvalue }

/-- The `Command` dataclass / payload item shape. -/
structure CommandRec where
  key : String
  name : Option String := Option.none
deriving DecidableEq, Repr

/-- `Command.create(data)`. -/
def commandCreate (d : CommandRec) : CommandRec :=
  { key := d.key, name := d.name }

/-- Payload of `GET .../status`. -/
structure StatusPayload where
  status : Option (List StatusRec) := Option.none
deriving DecidableEq, Repr

/-- `Appliance._async_fetch_status`. -/
def fetchStatus (resp : RawResp StatusPayload) :
    Except PyError (List (String × StatusRec)) :=
  if resp.errKeyTruthy then .ok []
  else
    match resp.data with
    | Option.none => .ok []
    | some d =>
        match d.status with
        | Option.none => .ok []
        | some items =>
            .ok (items.foldl (fun acc s => setA acc s.key (statusCreate s)) [])

/-- Payload of `GET .../commands`. -/
structure CommandsPayload where
  commands : Option (List CommandRec) := Option.none
deriving DecidableEq, Repr

/-- `Appliance._async_fetch_commands`. -/
def fetchCommands (resp : RawResp CommandsPayload) :
    Except PyError (List (String × CommandRec)) :=
  if resp.errKeyTruthy then .ok []
  else
    match resp.data with
    | Option.none => .ok []
    | some d =>
        match d.commands with
        | Option.none => .ok []
        | some items =>
            .ok (items.foldl (fun acc c => setA acc c.key (commandCreate c)) [])

/-- A stub entry of the settings list payload (only its key is read). -/
structure SettingStub where
  key : String
deriving DecidableEq, Repr

/-- Payload of `GET .../settings`. -/
structure SettingsPayload where
  settings : Option (List SettingStub) := Option.none
deriving DecidableEq, Repr

/-- The per-setting loop of `_async_fetch_settings`: each setting key is
fetched individually (`script`), non-200 replies are skipped, and
`Option.create(response.data)` on a `None` body raises `TypeError`. -/
def fetchSettingsLoop (script : String → RawResp OptItem) :
    List SettingStub → List (String × OptionRec) →
    Except PyError (List (String × OptionRec))
  | [], acc => .ok acc
  | stub :: rest, acc =>
      let r := script stub.key
      if r.status ≠ 200 then fetchSettingsLoop script rest acc
      else
        match r.data with
        | Option.none => .error (.typeError "NoneType object is not subscriptable")
        | some item => fetchSettingsLoop script rest (setA acc stub.key (optionCreate item))

/-- `Appliance._async_fetch_settings`. -/
def fetchSettings (resp : RawResp SettingsPayload)
    (script : String → RawResp OptItem) :
    Except PyError (List (String × OptionRec)) :=
  if resp.errKeyTruthy then .ok []
  else
    match resp.data with
    | Option.none => .ok []
    | some d =>
        match d.settings with
        | Option.none => .ok []
        | some stubs => fetchSettingsLoop script stubs []

/-- Payload of `GET .../programs/{type}`: either a dict with a `programs`
list, or (for selected/active) a bare program dict without that key. -/
inductive ProgData where
  | wrapped (programs : List ProgItem)
  | bare (p : ProgItem)
deriving DecidableEq, Repr

/-- Payload of `GET .../programs/available/{key}`. -/
structure OptionsPayload where
  options : Option (List OptItem) := Option.none
deriving DecidableEq, Repr

/-- `Appliance._async_fetch_available_options(program_key)` — never raises;
failures and missing data yield `None`. -/
def fetchAvailableOptions (script : String → RawResp OptionsPayload)
    (programKey : String) : Option (List (String × OptionRec)) :=
  let r := script programKey
  if r.errKeyTruthy then Option.none
  else
    match r.data with
    | Option.none => Option.none
    | some d =>
        match d.options with
        | Option.none => Option.none
        | some l => some (optionlistToDict l)

/-- The polymorphic return of `_async_fetch_programs`: Python `None`, a
single `Program` (selected/active), or a dict of programs. -/
inductive ProgFetchRes where
  | pyNone
  | single (p : ProgramRec)
  | dict (d : List (String × ProgramRec))
deriving DecidableEq, Repr

/-- `Appliance._async_fetch_programs(program_type)`: an error key in the
response returns `None`; missing data raises; otherwise each program dict is
converted, options are attached (inline, or detail-fetched for the current
or startonly available program), and a lone selected/active program is
unwrapped from the dict. -/
def fetchPrograms (st : ApplianceState) (programType : String)
    (resp : RawResp ProgData) (optsScript : String → RawResp OptionsPayload) :
    Except PyError ProgFetchRes :=
  if resp.errKeyTruthy then .ok .pyNone
  else
    match resp.data with
    | Option.none =>
        .error (hcErrorFromResponse
          (some "Failed to get a valid response from the Home Connect service (\x7bresponse.status\x7d)")
          Option.none resp)
    | some d =>
        let currentProgramKey : Option String :=
          match st.active_program with
          | some p => some p.key
          | Option.none =>
              match st.selected_program with
              | some p => some p.key
              | Option.none => Option.none
        let items :=
          match d with
          | .wrapped l => l
          | .bare p => [p]
        let programs := items.foldl (fun acc p =>
          let prog := programCreate p
          let opts : Option (List (String × OptionRec)) :=
            match p.options with
            | some l => some (optionlistToDict l)
            | Option.none =>
                if programType = "available" ∧
                    (some prog.key = currentProgramKey ∨ prog.execution = some "startonly") then
                  fetchAvailableOptions optsScript prog.key
                else Option.none
          setA acc p.key { prog with options := opts }) []
        if programType = "selected" ∨ programType = "active" then
          match programs with
          | [(_, p)] => .ok (.single p)
          | _ => .ok (.dict programs)
        else .ok (.dict programs)

/-! ## homeconnect.py — HomeConnect.async_load_data -/

/-- `HomeConnect.RefreshMode`. -/
inductive RefreshMode where
  | NOTHING
  | VALIDATE
  | DYNAMIC_ONLY
  | ALL
deriving DecidableEq, Repr

/-- One entry of the `/api/homeappliances` list. -/
structure HaInfo where
  haId : String
  connected : Bool
deriving DecidableEq, Repr

/-- Payload of `GET /api/homeappliances`. -/
structure HaPayload where
  homeappliances : Option (List HaInfo) := Option.none
deriving DecidableEq, Repr

/-- The coordinator view of a loaded appliance (only the connection flag is
read or written by `async_load_data`). -/
structure ApplianceStub where
  connected : Bool
deriving DecidableEq, Repr

/-- `haid.lower().replace('-','_')`. -/
def normalizeHaId (s : String) : String :=
  String.mk (s.toList.map (fun c => if c = '-' then '_' else c.toLower))

/-- Outcome of `async_load_data`: the appliance map and broadcast events at
return, or at the point the exception escaped. -/
structure LoadOut where
  appliances : List (String × ApplianceStub)
  events : List (String × String) := []
  err : Option PyError := Option.none
deriving DecidableEq, Repr

/-- `Appliance.async_set_connection_state(False)` as invoked from the load
loop: on an actual change the flag flips and CONNECTION_CHANGED is broadcast
(the data refetch only happens on a transition to connected). -/
def setConnectionStateFalse (app : ApplianceStub) (haid : String)
    (events : List (String × String)) : ApplianceStub × List (String × String) :=
  if app.connected then ({ connected := false }, events ++ [(haid, "CONNECTION_CHANGED")])
  else (app, events)

/-- The `for ha in data['homeappliances']:` loop of `async_load_data`:
disabled appliances are skipped; connected ones are refreshed (an existing
entry; `async_fetch_data` leaves the map itself unchanged) or created, and
PAIRED + DATA_CHANGED are broadcast; known disconnected ones get their
connection state set to false.  Returns the map, the collected `haid_list`
and the events. -/
def loadProcessList (disabled : List String) :
    List HaInfo → List (String × ApplianceStub) → List String →
    List (String × String) →
    List (String × ApplianceStub) × List String × List (String × String)
  | [], apps, haidList, events => (apps, haidList, events)
  | ha :: rest, apps, haidList, events =>
      if disabled.contains ha.haId ∨ disabled.contains (normalizeHaId ha.haId) then
        loadProcessList disabled rest apps haidList events
      else
        let haidList := haidList ++ [ha.haId]
        if ha.connected then
          let apps :=
            if (lookupA apps ha.haId).isSome then apps
            else setA apps ha.haId { connected := true }
          let events := events ++ [(ha.haId, "PAIRED"), (ha.haId, "DATA_CHANGED")]
          loadProcessList disabled rest apps haidList events
        else
          match lookupA apps ha.haId with
          | some app =>
              let (app2, events2) := setConnectionStateFalse app ha.haId events
              loadProcessList disabled rest (setA apps ha.haId app2) haidList events2
          | Option.none => loadProcessList disabled rest apps haidList events

/-- The `for haId in self.appliances.keys():` removal loop.  The keys view is
iterated live while entries are deleted: after a `del`, the next advance of
the dict iterator raises `RuntimeError` (CPython checks the size change
before checking exhaustion, so this fires even when the deleted key was the
last one visited). -/
def clearDepairedLoop (haidList : List String) :
    List String → List (String × ApplianceStub) → List (String × String) → Bool →
    List (String × ApplianceStub) × List (String × String) × Option PyError
  | [], apps, events, mutated =>
      if mutated then
        (apps, events, some (.runtimeError "dictionary changed size during iteration"))
      else (apps, events, Option.none)
  | k :: rest, apps, events, mutated =>
      if mutated then
        (apps, events, some (.runtimeError "dictionary changed size during iteration"))
      else if haidList.contains k then
        clearDepairedLoop haidList rest apps events false
      else
        clearDepairedLoop haidList rest (eraseA apps k)
          (events ++ [(k, "DEPAIRED")]) true

/-- `HomeConnect.async_load_data(refresh)` with the `/api/homeappliances`
response scripted by `resp`.  The except clause re-raises after flipping the
health flag, so an exception from the body escapes to the caller. -/
def asyncLoadData (apps : List (String × ApplianceStub)) (refresh : RefreshMode)
    (resp : RawResp HaPayload) (disabled : List String) : LoadOut :=
  if refresh = RefreshMode.NOTHING then
    { appliances := apps, events := apps.map (fun kv => (kv.1, "PAIRED")) }
  else if resp.status ≠ 200 then
    { appliances := apps,
      err := some (hcErrorFromResponse
        (some "Failed to get the list of appliances") Option.none resp) }
  else
    match resp.data with
    | Option.none =>
        -- `'homeappliances' in data` with data None
        { appliances := apps,
          err := some (.typeError "argument of type NoneType is not iterable") }
    | some d =>
        let haList := d.homeappliances.getD []
        let (apps2, haidList, events) := loadProcessList disabled haList apps [] []
        let (apps3, events2, err) :=
          clearDepairedLoop haidList (apps2.map (·.1)) apps2 events false
        { appliances := apps3, events := events2, err := err }

/-! ## Concrete fixtures used by the claim theorems -/

/-- A selectable program with key `P1`. -/
def p1 : ProgramRec := { key := "P1" }

/-- A selectable program with key `P2`. -/
def p2 : ProgramRec := { key := "P2" }

/-- An appliance with `P1` selected and programs `P1`, `P2` available. -/
def stSelect : ApplianceState :=
  { haId := "A"
    available_programs := some [("P1", p1), ("P2", p2)]
    selected_program := some p1 }

/-- A PUT-reply script that always answers 204. -/
def okScript : Nat → RawResp Unit := fun _ => { status := 204 }

/-- A `startonly` option named `Extra.Dry`. -/
def extraDry : OptionRec := { key := "Extra.Dry", execution := some "startonly" }

/-- The available-catalog entry for program `P`, advertising `Extra.Dry`. -/
def availP : ProgramRec := { key := "P", options := some [("Extra.Dry", extraDry)] }

/-- The selected `P` program instance (no option values of its own). -/
def progP : ProgramRec := { key := "P", options := some [] }

/-- An appliance with `P` selected and available, whose `Extra.Dry` option is
startonly. -/
def stStartOnly : ApplianceState :=
  { haId := "A"
    available_programs := some [("P", availP)]
    selected_program := some progP }

/-- A script whose first PUT reply is the `SDK.Error.UnsupportedOption`
rejection of `BadOpt` and whose later replies are 204. -/
def scriptBadOpt : Nat → RawResp Unit := fun i =>
  if i = 0 then
    { status := 400,
      error := some { key := some "SDK.Error.UnsupportedOption",
                      description := some "Option BadOpt not supported" } }
  else { status := 204 }

/-- The option dict `{key: BadOpt, value: 1}`. -/
def badOptDict : OptDict := { key := "BadOpt", value := .int 1 }

/-- The option dict `{key: Intensiv, value: 2}`. -/
def intensivDict : OptDict := { key := "Intensiv", value := .int 2 }

/-! # Theorems

First general-purpose lemmas about the embedded data structures, then one
theorem per claim (with its witness or counterexample where applicable). -/

/-- A successful association lookup is a membership. -/
theorem lookupA_mem {α β : Type} [DecidableEq α] (l : List (α × β)) (k : α)
    (v : β) (h : lookupA l k = some v) : (k, v) ∈ l := by
  induction l with
  | nil => simp [lookupA] at h
  | cons hd tl ih =>
      obtain ⟨a, b⟩ := hd
      by_cases hak : a = k
      · subst hak
        simp [lookupA] at h
        subst h
        exact List.mem_cons_self _ _
      · simp [lookupA, hak] at h
        exact List.mem_cons_of_mem _ (ih h)

/-- Overwriting an association with the value it already holds is the
identity. -/
theorem setA_self {α β : Type} [DecidableEq α] (l : List (α × β)) (k : α)
    (v : β) (h : lookupA l k = some v) : setA l k v = l := by
  induction l with
  | nil => simp [lookupA] at h
  | cons hd tl ih =>
      obtain ⟨a, b⟩ := hd
      by_cases hak : a = k
      · subst hak
        simp [lookupA] at h
        simp [setA, h]
      · simp [lookupA, hak] at h
        simp [setA, hak, ih h]

/-- Looking up the key just written by `setA` yields the written value. -/
theorem lookupA_setA {α β : Type} [DecidableEq α] (l : List (α × β)) (k : α)
    (v : β) : lookupA (setA l k v) k = some v := by
  induction l with
  | nil => simp [setA, lookupA]
  | cons hd tl ih =>
      obtain ⟨a, b⟩ := hd
      by_cases hak : a = k
      · subst hak
        simp [setA, lookupA]
      · simp [setA, lookupA, hak, ih]

/-- Only `*` folds to the code of `*` (42) under ASCII case folding. -/
theorem foldCode_eq_star {c : Char} (h : foldCode c = 42) : c = '*' := by
  unfold foldCode at h
  split at h
  · omega
  · have h2 : Char.ofNat c.toNat = Char.ofNat 42 := by rw [h]
    rw [Char.ofNat_toNat] at h2
    have h3 : Char.ofNat 42 = '*' := by decide
    rw [h2, h3]

/-- Only `?` folds to the code of `?` (63) under ASCII case folding. -/
theorem foldCode_eq_qmark {c : Char} (h : foldCode c = 63) : c = '?' := by
  unfold foldCode at h
  split at h
  · omega
  · have h2 : Char.ofNat c.toNat = Char.ofNat 63 := by rw [h]
    rw [Char.ofNat_toNat] at h2
    have h3 : Char.ofNat 63 = '?' := by decide
    rw [h2, h3]

/-- The fuelled matcher only depends on the case-folded characters of the
pattern and of the event key. -/
theorem globMatchAux_respects_fold :
    ∀ (n : Nat) (p p' s s' : List Char),
      p.map foldCode = p'.map foldCode →
      s.map foldCode = s'.map foldCode →
      globMatchAux n p s = globMatchAux n p' s' := by
  intro n
  induction n with
  | zero => intro p p' s s' hp hs; rfl
  | succ n ih =>
      intro p p' s s' hp hs
      cases p with
      | nil =>
        have hp' : p' = [] := by simpa using hp.symm
        subst hp'
        cases s with
        | nil =>
          have hs' : s' = [] := by simpa using hs.symm
          subst hs'; rfl
        | cons c cs =>
          cases s' with
          | nil => simp at hs
          | cons c' cs' => rfl
      | cons pc ps =>
        cases p' with
        | nil => simp at hp
        | cons pc' ps' =>
          simp only [List.map_cons, List.cons.injEq] at hp
          obtain ⟨hpc, hps⟩ := hp
          by_cases hstar : pc = '*'
          · have hstar' : pc' = '*' := by
              apply foldCode_eq_star
              rw [← hpc, hstar]
              decide
            subst hstar; subst hstar'
            cases s with
            | nil =>
              have hs' : s' = [] := by simpa using hs.symm
              subst hs'
              simp only [globMatchAux, if_pos rfl]
              exact ih ps ps' [] [] hps rfl
            | cons c cs =>
              cases s' with
              | nil => simp at hs
              | cons c' cs' =>
                simp only [List.map_cons, List.cons.injEq] at hs
                obtain ⟨hc, hcs⟩ := hs
                simp only [globMatchAux, if_pos rfl]
                have e1 := ih ps ps' (c :: cs) (c' :: cs') hps (by simp [hc, hcs])
                have e2 := ih ('*' :: ps) ('*' :: ps') cs cs' (by simp [hps]) hcs
                simp [e1, e2]
          · have hstar' : pc' ≠ '*' := by
              intro hcon
              apply hstar
              apply foldCode_eq_star
              rw [hpc, hcon]
              decide
            cases s with
            | nil =>
              have hs' : s' = [] := by simpa using hs.symm
              subst hs'
              simp [globMatchAux, hstar, hstar']
            | cons c cs =>
              cases s' with
              | nil => simp at hs
              | cons c' cs' =>
                simp only [List.map_cons, List.cons.injEq] at hs
                obtain ⟨hc, hcs⟩ := hs
                simp only [globMatchAux, if_neg hstar, if_neg hstar']
                have etl := ih ps ps' cs cs' hps hcs
                by_cases hq : pc = '?'
                · have hq' : pc' = '?' := by
                    apply foldCode_eq_qmark
                    rw [← hpc, hq]
                    decide
                  simp [hq, hq', etl]
                · have hq' : pc' ≠ '?' := by
                    intro hcon
                    apply hq
                    apply foldCode_eq_qmark
                    rw [hpc, hcon]
                    decide
                  simp only [if_neg hq, if_neg hq', etl]
                  rw [hpc, hc]

/-- Glob matching only depends on the case-folded characters of the pattern
and of the event key. -/
theorem globMatch_respects_fold (p p' s s' : List Char)
    (hp : p.map foldCode = p'.map foldCode)
    (hs : s.map foldCode = s'.map foldCode) :
    globMatch p s = globMatch p' s' := by
  have hl1 : p.length = p'.length := by
    have h2 := congrArg List.length hp
    simpa using h2
  have hl2 : s.length = s'.length := by
    have h2 := congrArg List.length hs
    simpa using h2
  unfold globMatch
  rw [hl1, hl2]
  exact globMatchAux_respects_fold _ p p' s s' hp hs

/-- C10: glob callback matching is case-insensitive.  A callback registered
under a key containing `*` is invoked by a broadcast exactly when the event
key matches the glob pattern, and that match depends only on the case-folded
pattern and event key — so a pattern differing from the event key only in
letter case still fires. -/
theorem c10_glob_matching_case_insensitive
    (pat : String) (cb : Nat) (haid : String) (ek : String)
    (hstar : pat.toList.contains '*' = true) :
    (cb ∈ (broadcastEvent (registerCallback [] cb pat Option.none) haid ek).calls
      ↔ globMatch pat.toList ek.toList = true)
    ∧ (∀ p p' s s' : List Char,
        p.map foldCode = p'.map foldCode → s.map foldCode = s'.map foldCode →
        globMatch p s = globMatch p' s') := by
  constructor
  · have hmem : '*' ∈ pat.data := by simpa using hstar
    have hreg : registerCallback [] cb pat Option.none
        = [(Option.none, { exact := [], wild := [⟨pat, cb⟩] })] := by
      simp [registerCallback, lookupA, hmem, wildcardRegistered, Bucket.empty, setA]
    rw [hreg]
    have hbc : (broadcastEvent [(Option.none, { exact := [], wild := [⟨pat, cb⟩] })]
          haid ek).calls
        = if globMatch pat.toList ek.toList = true then [cb] else [] := by
      cases h : globMatch pat.data ek.data
      · simp [broadcastEvent, broadcastLoop, dispatchBucket, lookupA, Bucket.empty,
          List.filter, String.toList, h]
      · simp [broadcastEvent, broadcastLoop, dispatchBucket, lookupA, Bucket.empty,
          List.filter, String.toList, h]
    rw [hbc]
    cases h : globMatch pat.toList ek.toList
    · simp
    · simp
  · intro p p' s s' hp hs
    exact globMatch_respects_fold p p' s s' hp hs

/-- Witness for C10: the pattern `bsh.common.status.*` differs from the
event key `BSH.Common.Status.DoorState` in letter case and still fires. -/
theorem c10_witness :
    9 ∈ (broadcastEvent (registerCallback [] 9 "bsh.common.status.*" Option.none)
          "ha1" "BSH.Common.Status.DoorState").calls :=
  (c10_glob_matching_case_insensitive "bsh.common.status.*" 9 "ha1"
      "BSH.Common.Status.DoorState" (by decide)).1.mpr (by decide)

/-- C5: broadcasting an event for which no exact and no glob callback fired,
with a callback registered under the UNHANDLED key, does not invoke that
callback: the dispatch looks the UNHANDLED key up in the outer registry dict
and raises `KeyError`. -/
theorem c5_unhandled_dispatch_raises_keyerror :
    broadcastEvent
        [(Option.none, { exact := [("UNHANDLED", [7])], wild := [] })]
        "app1" "SomeKey"
      = { calls := [], err := some (.keyError "UNHANDLED") } := by decide

/-- C8 counterexample: with callback 1 registered under exact key `K`,
deregistering the never-registered callback 2 under `K` raises `KeyError`
(from `set.remove`) instead of being a no-op. -/
theorem c8_counterexample :
    deregisterCallback (registerCallback [] 1 "K" Option.none) 2 "K" Option.none
      = .error (.keyError "callback not in set") := by decide

/-- C8 amended: deregistering a pair whose KEY is absent is a no-op that
leaves the registry unchanged (when the haId bucket exists), both for exact
keys and — even with the callback absent — for glob keys; only an exact key
that is present with an unregistered callback raises. -/
theorem c8_deregister_absent_is_noop
    (reg : Registry) (cb : Nat) (key : String) (haid : Option String)
    (b : Bucket) (hb : lookupA reg haid = some b) :
    (key.toList.contains '*' = false → lookupA b.exact key = Option.none →
      deregisterCallback reg cb key haid = .ok reg)
    ∧ (key.toList.contains '*' = true →
      (∀ it ∈ b.wild, ¬(it.key = key ∧ it.callback = cb)) →
      deregisterCallback reg cb key haid = .ok reg) := by
  constructor
  · intro hnw hkey
    have hnmem : ¬ '*' ∈ key.data := by simpa using hnw
    simp [deregisterCallback, hb, hnmem, hkey]
  · intro hw hnone
    have hmem : '*' ∈ key.data := by simpa using hw
    have hse := setA_self reg haid b hb
    have hfilter : ∀ (l : List WildRec),
        (∀ it ∈ l, ¬(it.key = key ∧ it.callback = cb)) →
        l.filter (fun item => !decide (item.key = key) || !decide (item.callback = cb))
          = l := by
      intro l
      induction l with
      | nil => intro _; rfl
      | cons a rest ih =>
          intro hl
          have ha := hl a (List.mem_cons_self _ _)
          have hrest := ih (fun it hit => hl it (List.mem_cons_of_mem _ hit))
          have hcond : (!decide (a.key = key) || !decide (a.callback = cb)) = true := by
            by_cases hk : a.key = key
            · by_cases hcb : a.callback = cb
              · exact absurd ⟨hk, hcb⟩ ha
              · simp [hk, hcb]
            · simp [hk]
          rw [List.filter_cons, if_pos hcond, hrest]
    simp [deregisterCallback, hb, hmem, hfilter b.wild hnone, hse]

/-- Witness for C8: deregistering an absent exact key and an absent glob
pair both leave a populated registry unchanged. -/
theorem c8_witness :
    deregisterCallback
        [(Option.none, { exact := [("K", [1])], wild := [⟨"W*", 5⟩] })]
        2 "Z" Option.none
      = .ok [(Option.none, { exact := [("K", [1])], wild := [⟨"W*", 5⟩] })]
    ∧ deregisterCallback
        [(Option.none, { exact := [("K", [1])], wild := [⟨"W*", 5⟩] })]
        2 "W*" Option.none
      = .ok [(Option.none, { exact := [("K", [1])], wild := [⟨"W*", 5⟩] })] := by
  constructor
  · exact (c8_deregister_absent_is_noop
      [(Option.none, { exact := [("K", [1])], wild := [⟨"W*", 5⟩] })]
      2 "Z" Option.none { exact := [("K", [1])], wild := [⟨"W*", 5⟩] }
      (by decide)).1 (by decide) (by decide)
  · exact (c8_deregister_absent_is_noop
      [(Option.none, { exact := [("K", [1])], wild := [⟨"W*", 5⟩] })]
      2 "W*" Option.none { exact := [("K", [1])], wild := [⟨"W*", 5⟩] }
      (by decide)).2 (by decide) (by decide)

/-- C4 counterexample: a GET whose every attempt raises fails with the
code-902 transport failure, not 901. -/
theorem c4_counterexample :
    errCode (asyncRequest "GET" (fun _ => Attempt.raises)) = some 902
    ∧ errCode (asyncRequest "GET" (fun _ => Attempt.raises)) ≠ some 901 := by
  decide

/-- C4 amended: when every attempt of a request raises an exception, the
request fails after three attempts with the code-902 transport failure; the
code-901 branch is guarded by `if not retry:`, which never holds inside
`while retry:`. -/
theorem c4_all_raises_gives_902 (method : String) (attempts : Nat → Attempt)
    (h : ∀ i, i < 3 → attempts i = .raises) :
    asyncRequest method attempts
      = .error (.homeConnectError
          (some "Failed to get a valid response from Home Connect server")
          (some 902) Option.none Option.none) := by
  have h0 := h 0 (by omega)
  have h1 := h 1 (by omega)
  have h2 := h 2 (by omega)
  simp [asyncRequest, asyncRequestLoop, h0, h1, h2]

/-- Witness for C4 at a PUT whose attempts all raise. -/
theorem c4_witness :
    asyncRequest "PUT" (fun _ => Attempt.raises)
      = .error (.homeConnectError
          (some "Failed to get a valid response from Home Connect server")
          (some 902) Option.none Option.none) :=
  c4_all_raises_gives_902 "PUT" (fun _ => Attempt.raises) (fun _ _ => rfl)

/-- C2: loading with refresh mode DYNAMIC_ONLY while the known appliance `A`
is absent from the service list broadcasts DEPAIRED for `A` and removes it,
but the load then raises `RuntimeError` from the dict iterator that was
mutated during iteration, instead of completing normally. -/
theorem c2_depaired_removal_raises :
    asyncLoadData [("A", { connected := true })] RefreshMode.DYNAMIC_ONLY
        { status := 200, data := some { homeappliances := some [] } } []
      = { appliances := [], events := [("A", "DEPAIRED")],
          err := some (.runtimeError "dictionary changed size during iteration") } := by
  decide

/-- C3: `get_option_to_apply` returns the STORED `self.value` in the
constructed dict rather than the validated candidate: with stored value 1
and candidate 2 (no constraints) the result's value field is 1; the
validation itself does act on the candidate (candidate 3 violates the
stepsize-2 constraint and yields None). -/
theorem c3_returns_stored_value :
    getOptionToApply { key := "K", value := .int 1, unit := some "u" } (.int 2) false
      = .ok (some { key := "K", value := .int 1, unit := some "u" })
    ∧ PyVal.int 1 ≠ PyVal.int 2
    ∧ getOptionToApply
        { key := "K", value := .int 1, unit := some "u",
          min := some 0, max := some 10, stepsize := some 2 } (.int 3) false
      = .ok Option.none := by
  decide

/-- C9 counterexample: the available-programs fetch returns Python `None`,
not an empty map, when the response carries an error key. -/
theorem c9_counterexample :
    fetchPrograms { haId := "A" } "available"
        { status := 404, error := some { key := some "SDK.Error.UnsupportedProgram" } }
        (fun _ => { status := 404 })
      = .ok .pyNone
    ∧ ProgFetchRes.pyNone ≠ .dict [] := by
  decide

/-- C9 amended: on a response carrying a (truthy) error key, the status,
settings and commands fetches return an empty map, the programs fetch
returns `None`, and none of them lets an exception propagate. -/
theorem c9_error_key_yields_empty
    (k : String) (hk : k ≠ "")
    (st : ApplianceState) (ptype : String)
    (rs : RawResp StatusPayload) (rset : RawResp SettingsPayload)
    (rc : RawResp CommandsPayload) (rp : RawResp ProgData)
    (setScript : String → RawResp OptItem)
    (optsScript : String → RawResp OptionsPayload)
    (hs : rs.errorKey = some k) (hset : rset.errorKey = some k)
    (hc : rc.errorKey = some k) (hp : rp.errorKey = some k) :
    fetchStatus rs = .ok []
    ∧ fetchSettings rset setScript = .ok []
    ∧ fetchCommands rc = .ok []
    ∧ fetchPrograms st ptype rp optsScript = .ok .pyNone := by
  have ts : rs.errKeyTruthy = true := by simp [RawResp.errKeyTruthy, hs, hk]
  have tset : rset.errKeyTruthy = true := by simp [RawResp.errKeyTruthy, hset, hk]
  have tc : rc.errKeyTruthy = true := by simp [RawResp.errKeyTruthy, hc, hk]
  have tp : rp.errKeyTruthy = true := by simp [RawResp.errKeyTruthy, hp, hk]
  exact ⟨by simp [fetchStatus, ts], by simp [fetchSettings, tset],
    by simp [fetchCommands, tc], by simp [fetchPrograms, tp]⟩

/-- Witness for C9 at concrete error responses. -/
theorem c9_witness :
    fetchStatus { status := 404, error := some { key := some "E" } } = .ok []
    ∧ fetchSettings { status := 404, error := some { key := some "E" } }
        (fun _ => { status := 404 }) = .ok []
    ∧ fetchCommands { status := 404, error := some { key := some "E" } } = .ok []
    ∧ fetchPrograms { haId := "A" } "available"
        { status := 404, error := some { key := some "E" } }
        (fun _ => { status := 404 }) = .ok .pyNone :=
  c9_error_key_yields_empty "E" (by decide) { haId := "A" } "available"
    { status := 404, error := some { key := some "E" } }
    { status := 404, error := some { key := some "E" } }
    { status := 404, error := some { key := some "E" } }
    { status := 404, error := some { key := some "E" } }
    (fun _ => { status := 404 }) (fun _ => { status := 404 })
    rfl rfl rfl rfl

/-- C1: selecting available program `P2` (execution not startonly) while
`P1` is selected, with the PUT succeeding: the method refetches but then
raises `AttributeError` when evaluating `Events.PROGRAM_SELECTED` — the
`Events` enum in const.py declares no such member — so neither
PROGRAM_SELECTED nor DATA_CHANGED is broadcast. -/
theorem c1_select_program_attribute_error :
    (asyncSelectProgram stSelect (some "P2") Option.none Option.none okScript 5
        (Except.ok (some p2)) (Except.ok (some [("P1", p1), ("P2", p2)]))).result
      = .raised (.attributeError "PROGRAM_SELECTED")
    ∧ (asyncSelectProgram stSelect (some "P2") Option.none Option.none okScript 5
        (Except.ok (some p2)) (Except.ok (some [("P1", p1), ("P2", p2)]))).events = []
    ∧ eventsAttr "PROGRAM_SELECTED" = .error (.attributeError "PROGRAM_SELECTED") := by
  decide

/-- The trace accumulated so far is a prefix of the final trace of the
set-program loop. -/
theorem setProgramLoop_trace_prefix (ep key : String) (script : Nat → RawResp Unit) :
    ∀ (fuel i : Nat) (cmd : List OptDict) (options : Option (List OptDict))
      (trace : List PutRecord),
      ∃ t, (setProgramLoop ep key script fuel i cmd options trace).trace = trace ++ t := by
  intro fuel
  induction fuel with
  | zero =>
      intro i cmd options trace
      exact ⟨[], by simp [setProgramLoop]⟩
  | succ n ih =>
      intro i cmd options trace
      simp only [setProgramLoop]
      generalize (⟨ep, .programOptions key (setProgramCmd cmd options)⟩ : PutRecord) = e
      split
      · exact ⟨[e], rfl⟩
      · split
        · split
          · exact ⟨[e], rfl⟩
          · split
            · split
              · exact ⟨[e], rfl⟩
              · obtain ⟨t, ht⟩ := ih (i + 1) _ _ (trace ++ [e])
                exact ⟨e :: t, by rw [ht]; simp⟩
            · unfold setProgramRaise
              split
              · exact ⟨[e], rfl⟩
              · exact ⟨[e], rfl⟩
        · unfold setProgramRaise
          split
          · exact ⟨[e], rfl⟩
          · exact ⟨[e], rfl⟩

/-- With fuel left, one pass of the set-program loop appends the PUT it
issues — endpoint, program key and the computed options body — to the trace,
and whatever follows extends it. -/
theorem setProgramLoop_trace_head (ep key : String) (script : Nat → RawResp Unit)
    (fuel i : Nat) (cmd : List OptDict) (options : Option (List OptDict))
    (trace : List PutRecord) :
    ∃ t, (setProgramLoop ep key script (fuel + 1) i cmd options trace).trace
      = trace ++ ⟨ep, .programOptions key (setProgramCmd cmd options)⟩ :: t := by
  simp only [setProgramLoop]
  generalize (⟨ep, .programOptions key (setProgramCmd cmd options)⟩ : PutRecord) = e
  split
  · exact ⟨[], rfl⟩
  · split
    · split
      · exact ⟨[], rfl⟩
      · split
        · split
          · exact ⟨[], rfl⟩
          · obtain ⟨t, ht⟩ := setProgramLoop_trace_prefix ep key script fuel (i + 1) _ _
              (trace ++ [e])
            exact ⟨t, by rw [ht]; simp⟩
        · unfold setProgramRaise
          split
          · exact ⟨[], rfl⟩
          · exact ⟨[], rfl⟩
    · unfold setProgramRaise
      split
      · exact ⟨[], rfl⟩
      · exact ⟨[], rfl⟩

/-- C6 counterexample: when dropping the only option empties the list, the
retry is issued with the SAME body (the stale `command['data']['options']`),
not with the emptied option list: rejecting `[BadOpt]` retries with
`[BadOpt]` although the option list minus `BadOpt` is `[]`. -/
theorem c6_counterexample :
    (asyncSetProgram { haId := "A" } "Eco50" (some [badOptDict]) "active"
        scriptBadOpt 5).trace
      = [⟨"/api/homeappliances/A/programs/active", .programOptions "Eco50" [badOptDict]⟩,
         ⟨"/api/homeappliances/A/programs/active", .programOptions "Eco50" [badOptDict]⟩]
    ∧ (asyncSetProgram { haId := "A" } "Eco50" (some [badOptDict]) "active"
        scriptBadOpt 5).result = .ok true
    ∧ [badOptDict].filter (fun o => o.key ≠ "BadOpt") = ([] : List OptDict) := by
  decide

/-- C6 amended: on an `SDK.Error.UnsupportedOption` whose description
matches `Option X not supported`, the options named X are dropped and the
request is retried — with the filtered list as the body whenever that list
is non-empty (when it is empty the previous body is reused, as shown by the
counterexample); an error whose key or description does not match raises an
error carrying the service's error description and is not retried. -/
theorem c6_unsupported_drop_retry
    (st : ApplianceState) (key mode : String) (opts : List OptDict)
    (script : Nat → RawResp Unit) (fuel : Nat)
    (resp0 : RawResp Unit) (h0 : script 0 = resp0) (hopts : opts ≠ []) :
    (∀ bad desc,
      resp0.status ≠ 204 →
      resp0.errorKey = some "SDK.Error.UnsupportedOption" →
      resp0.errorDescription = some desc →
      matchUnsupported desc = some bad →
      opts.filter (fun o => o.key ≠ bad) ≠ [] →
      (asyncSetProgram st key (some opts) mode script (fuel + 2)).trace.take 2
        = [⟨baseEndpoint st ++ "/programs/" ++ mode, .programOptions key opts⟩,
           ⟨baseEndpoint st ++ "/programs/" ++ mode,
             .programOptions key (opts.filter (fun o => o.key ≠ bad))⟩])
    ∧ (∀ desc,
      resp0.status ≠ 204 →
      resp0.errorKey ≠ some "SDK.Error.UnsupportedOption" →
      resp0.errorDescription = some desc → desc ≠ "" →
      asyncSetProgram st key (some opts) mode script (fuel + 1)
        = { trace := [⟨baseEndpoint st ++ "/programs/" ++ mode,
              .programOptions key opts⟩],
            result := .raised (.homeConnectError (some desc) (some resp0.status)
              resp0.errorKey (some desc)) }) := by
  have hem : opts.isEmpty = false := by
    cases opts with
    | nil => exact absurd rfl hopts
    | cons a l => rfl
  have hcmd : setProgramCmd [] (some opts) = opts := by
    simp only [setProgramCmd]
    rw [hem]
    simp
  constructor
  · intro bad desc h204 hkey hdesc hmatch hfne
    have hfem : (opts.filter (fun o => o.key ≠ bad)).isEmpty = false := by
      cases hfe : opts.filter (fun o => o.key ≠ bad) with
      | nil => exact absurd hfe hfne
      | cons a l => rfl
    have hcmd2 : setProgramCmd opts (some (opts.filter (fun o => o.key ≠ bad)))
        = opts.filter (fun o => o.key ≠ bad) := by
      simp only [setProgramCmd]
      rw [hfem]
      simp
    generalize hm : fuel + 1 = m
    have h2 : fuel + 2 = m + 1 := by omega
    rw [asyncSetProgram, h2]
    simp only [setProgramLoop, hcmd, h0]
    rw [if_neg h204, hkey, if_pos rfl, hdesc]
    simp only [hmatch]
    subst hm
    obtain ⟨t, ht⟩ := setProgramLoop_trace_head (baseEndpoint st ++ "/programs/" ++ mode)
      key script fuel (0 + 1) opts (some (opts.filter (fun o => o.key ≠ bad)))
      ([] ++ [⟨baseEndpoint st ++ "/programs/" ++ mode, .programOptions key opts⟩])
    rw [hcmd2] at ht
    rw [ht]
    simp [List.take]
  · intro desc h204 hkey hdesc hne
    have hdt : resp0.errDescTruthy = true := by
      simp [RawResp.errDescTruthy, hdesc, hne]
    rw [asyncSetProgram]
    simp only [setProgramLoop, hcmd, h0]
    rw [if_neg h204, if_neg hkey]
    simp only [setProgramRaise, hdt, if_pos, hcErrorFromResponse, hdesc]
    simp

/-- Witness for C6 at the spec's S5 scenario: `[BadOpt, Intensiv]` rejected
with `Option BadOpt not supported` is retried with `[Intensiv]`. -/
theorem c6_witness :
    (asyncSetProgram { haId := "A" } "Eco50" (some [badOptDict, intensivDict]) "active"
        scriptBadOpt 5).trace.take 2
      = [⟨baseEndpoint { haId := "A" } ++ "/programs/" ++ "active",
          .programOptions "Eco50" [badOptDict, intensivDict]⟩,
         ⟨baseEndpoint { haId := "A" } ++ "/programs/" ++ "active",
          .programOptions "Eco50"
            ([badOptDict, intensivDict].filter (fun o => o.key ≠ "BadOpt"))⟩] :=
  (c6_unsupported_drop_retry { haId := "A" } "Eco50" "active"
      [badOptDict, intensivDict] scriptBadOpt 3 (scriptBadOpt 0) rfl (by decide)).1
    "BadOpt" "Option BadOpt not supported" (by decide) (by decide) (by decide)
    (by decide) (by decide)

/-- After `set_start_option(key, v)` the buffer maps `key` to a record whose
value is `v` (and whose key field is `key`, given the buffer was
well-keyed). -/
theorem setStartOption_lookup (st : ApplianceState) (key : String) (v : PyVal)
    (hwf : ∀ r, lookupA (st.startonly_options.getD []) key = some r → r.key = key) :
    ∃ r, lookupA ((setStartOption st key v).startonly_options.getD []) key = some r
      ∧ r.key = key ∧ r.value = v := by
  unfold setStartOption
  cases hl : lookupA (st.startonly_options.getD []) key with
  | none =>
      refine ⟨{ key := key, value := v }, ?_, rfl, rfl⟩
      simp only [hl, Option.getD_some]
      exact lookupA_setA _ _ _
  | some o =>
      refine ⟨{ o with value := v }, ?_, hwf o hl, rfl⟩
      simp only [hl, Option.getD_some]
      exact lookupA_setA _ _ _

/-- Every options list successfully composed by `async_start_program`
contains a `{key, value}` dict for each buffered startonly option. -/
theorem buildStartOptions_mem (st : ApplianceState) (pk key : String) (r : OptionRec)
    (hso : lookupA (st.startonly_options.getD []) key = some r)
    (opts : List OptDict) (hbuild : buildStartOptions st pk = .ok opts) :
    ({ key := r.key, value := r.value } : OptDict) ∈ opts := by
  have hmem : (key, r) ∈ st.startonly_options.getD [] := lookupA_mem _ _ _ hso
  have hne : (st.startonly_options.getD []).isEmpty = false := by
    cases h : st.startonly_options.getD [] with
    | nil => rw [h] at hmem; simp at hmem
    | cons a l => rfl
  have haddSo : ∀ base, ({ key := r.key, value := r.value } : OptDict)
      ∈ addStartonly (st.startonly_options.getD []) base := by
    intro base
    unfold addStartonly
    rw [hne]
    simp only [Bool.false_eq_true, if_false]
    apply List.mem_append_right
    exact List.mem_map_of_mem _ hmem
  unfold buildStartOptions at hbuild
  split at hbuild
  · simp only [Except.ok.injEq] at hbuild
    rw [← hbuild]
    exact haddSo _
  · by_cases hcond :
      (optTruthy st.available_programs = true ∧ st.startonly_program = Option.none)
    · rw [if_pos hcond] at hbuild
      repeat' split at hbuild
      all_goals
        first
        | (simp only [Except.ok.injEq] at hbuild
           rw [← hbuild]
           exact haddSo _)
        | simp at hbuild
    · rw [if_neg hcond] at hbuild
      simp only [Except.ok.injEq] at hbuild
      rw [← hbuild]
      exact haddSo _

/-- C7 counterexample: `async_set_option` on a startonly option with a FALSY
value performs no PUT but CLEARS the buffer entry instead of buffering the
value, so `startonly_options[key]` does not hold the value afterwards. -/
theorem c7_counterexample :
    asyncSetOption stStartOnly "Extra.Dry" (.bool false) { status := 204 }
      = .ok (stStartOnly, true, [])
    ∧ stStartOnly.startonly_options = Option.none
    ∧ lookupA (((clearStartOption
          (setStartOption stStartOnly "Extra.Dry" (.bool true)) "Extra.Dry")
        ).startonly_options.getD []) "Extra.Dry" = Option.none := by
  decide

/-- C7 amended: for a startonly option and a TRUTHY value,
`async_set_option` performs no PUT, buffers the value so that
`startonly_options[key].value == value`, and a subsequent `start_program()`
without explicit options includes `{key, value}` in the (non-empty) options
body of its first PUT to `/programs/active`; a falsy value clears the buffer
entry instead (see the counterexample). -/
theorem c7_startonly_buffering
    (st : ApplianceState) (key : String) (v : PyVal) (opt : OptionRec)
    (resp : RawResp Unit)
    (hopt : getAppliedProgramAvailableOption st key = .ok (some opt))
    (hexec : opt.execution = some "startonly")
    (htruthy : v.truthy = true)
    (hwf : ∀ r, lookupA (st.startonly_options.getD []) key = some r → r.key = key) :
    asyncSetOption st key v resp = .ok (setStartOption st key v, true, [])
    ∧ (∃ r, lookupA ((setStartOption st key v).startonly_options.getD []) key = some r
        ∧ r.key = key ∧ r.value = v)
    ∧ (∀ pk opts script fuel av,
        pk ≠ "" →
        buildStartOptions (setStartOption st key v) pk = Except.ok opts →
        (setStartOption st key v).available_programs = some av →
        av ≠ [] → (lookupA av pk).isSome = true →
        ({ key := key, value := v } : OptDict) ∈ opts
        ∧ (asyncStartProgram (setStartOption st key v) (some pk) Option.none Option.none
            script (fuel + 1)).trace.head?
          = some ⟨baseEndpoint st ++ "/programs/" ++ "active",
              .programOptions pk opts⟩) := by
  obtain ⟨r, hr, hrkey, hrval⟩ := setStartOption_lookup st key v hwf
  refine ⟨?_, ⟨r, hr, hrkey, hrval⟩, ?_⟩
  · simp [asyncSetOption, hopt, hexec, htruthy]
  · intro pk opts script fuel av hpk hbuild hav havne havpk
    have hmem : ({ key := key, value := v } : OptDict) ∈ opts := by
      have h2 := buildStartOptions_mem (setStartOption st key v) pk key r hr opts hbuild
      rw [hrkey, hrval] at h2
      exact h2
    refine ⟨hmem, ?_⟩
    have hone : opts ≠ [] := by
      intro hcon
      rw [hcon] at hmem
      simp at hmem
    have hoem : opts.isEmpty = false := by
      cases opts with
      | nil => exact absurd rfl hone
      | cons a l => rfl
    have havem : av.isEmpty = false := by
      cases av with
      | nil => exact absurd rfl havne
      | cons a l => rfl
    have hhaid : (setStartOption st key v).haId = st.haId := rfl
    have hsp : setProgramCmd [] (some opts) = opts := by
      simp only [setProgramCmd]
      rw [hoem]
      simp
    rw [asyncStartProgram]
    simp only [if_neg hpk, hav, havem, havpk, hbuild]
    rw [if_neg (by decide)]
    rw [asyncSetProgram]
    obtain ⟨t, ht⟩ := setProgramLoop_trace_head
      (baseEndpoint (setStartOption st key v) ++ "/programs/" ++ "active")
      pk script fuel 0 [] (some opts) []
    rw [hsp] at ht
    rw [ht]
    simp [baseEndpoint, hhaid]

/-- Witness for C7 at the spec's S4 scenario (`Extra.Dry`, value `true`). -/
theorem c7_witness :
    asyncSetOption stStartOnly "Extra.Dry" (.bool true) { status := 204 }
      = .ok (setStartOption stStartOnly "Extra.Dry" (.bool true), true, [])
    ∧ ({ key := "Extra.Dry", value := .bool true } : OptDict)
        ∈ [({ key := "Extra.Dry", value := .bool true } : OptDict)]
    ∧ (asyncStartProgram (setStartOption stStartOnly "Extra.Dry" (.bool true))
          (some "P") Option.none Option.none okScript 5).trace.head?
        = some ⟨baseEndpoint stStartOnly ++ "/programs/" ++ "active",
            .programOptions "P" [{ key := "Extra.Dry", value := .bool true }]⟩ := by
  have h := c7_startonly_buffering stStartOnly "Extra.Dry" (.bool true) extraDry
    { status := 204 } (by decide) (by decide) (by decide)
    (by intro r hr; simp [stStartOnly, lookupA] at hr)
  have h3 := h.2.2 "P" [{ key := "Extra.Dry", value := .bool true }] okScript 4
    [("P", availP)] (by decide) (by decide) (by decide) (by decide) (by decide)
  exact ⟨h.1, h3.1, h3.2⟩

end HCA
